import Mathlib

/-!
Verification of the Dragon Ball Radar repository's core logic: the session
state, the collection engine, the Shenron wish (progression) handler, the
location-oracle client and the radar projection, shallowly embedded from
`src/App.tsx`, `src/services/geminiService.ts`, `src/components/RadarUI.tsx`
and the unnamed variant files `src/unnamed/part_000` .. `part_002`.

Numbers that the source manipulates as JS doubles are modelled as rationals
(`ℚ`); every decimal literal of the source (0.05, 0.025, 0.01, 0.001, 0.15,
111, 6371, ...) is exactly representable as a double, so the arithmetic the
claims depend on (comparisons, assignments) is faithfully mirrored.  The one
transcendental computation, the haversine `calculateDistance`
(src/App.tsx lines 117-123, built from `Math.sin`/`Math.cos`/`Math.atan2`/
`Math.sqrt`), is abstracted as an explicit distance-function parameter
`DistFn`; every theorem about the collection engine is proved for an
arbitrary such function, hence in particular for the haversine.
-/

/-- Structure `UserLocation` from src/types.ts: latitude, longitude and GPS
accuracy of the player (or of a picked scan center). -/
structure UserLocation where
  lat : ℚ
  lng : ℚ
  accuracy : ℚ
deriving Repr, DecidableEq

/-- Structure `DragonBall` from src/types.ts: one target with its stable id,
coordinate, star label, found flag and display name. -/
structure DragonBall where
  id : ℕ
  lat : ℚ
  lng : ℚ
  stars : ℕ
  found : Bool
  name : String
deriving Repr, DecidableEq

/-- Structure `RadarState` from src/types.ts: the aggregate session state
held in the `useState` hook of `App` (src/App.tsx lines 67-82). -/
structure RadarState where
  range : ℚ
  userLocation : Option UserLocation
  scanCenter : Option UserLocation
  dragonBalls : List DragonBall
  isLoading : Bool
  error : Option String
  design : String
  collectionRadius : ℚ
  unlockedFeatures : List String
  currentRace : String
deriving Repr, DecidableEq

/-- Abstraction of `calculateDistance(lat1, lon1, lat2, lon2)`
(src/App.tsx lines 117-123): a function producing a distance in km from the
two coordinates.  The source implementation is the haversine formula over
floats; being transcendental it is kept as a parameter, and the collection
theorems hold for every instantiation of it. -/
def DistFn : Type := ℚ → ℚ → ℚ → ℚ → ℚ

/-- Per-ball body of the collection effect (src/App.tsx lines 143-147 and
src/unnamed/part_002 lines 138-142): an already-found ball is returned
unchanged; an unfound ball becomes found exactly when the computed distance
is strictly below the active collection radius. -/
def collectBall (dist : DistFn) (radius : ℚ) (u : UserLocation) (ball : DragonBall) :
    DragonBall :=
  if ball.found then ball
  else if dist u.lat u.lng ball.lat ball.lng < radius then { ball with found := true }
  else ball

/-- One pass of the Collection Engine: the `state.dragonBalls.map(...)` of
src/App.tsx lines 143-147, mapping `collectBall` over the target list. -/
def collectPass (dist : DistFn) (radius : ℚ) (u : UserLocation)
    (balls : List DragonBall) : List DragonBall :=
  balls.map (collectBall dist radius u)

/-- The collection `useEffect` (src/App.tsx lines 141-151): a no-op when
there is no position fix or no targets, otherwise it replaces `dragonBalls`
with the result of one `collectPass` using the state's own position and
collection radius.  The source's `JSON.stringify` comparison only skips a
redundant `setState` when the pass changed nothing; the resulting state is
identical either way, so it is not modelled separately. -/
def collectEffect (dist : DistFn) (st : RadarState) : RadarState :=
  match st.userLocation with
  | none => st
  | some u =>
    if st.dragonBalls.length = 0 then st
    else { st with dragonBalls := collectPass dist st.collectionRadius u st.dragonBalls }

/-- Repeated collection passes under a sequence of later player positions
(each GPS `watchPosition` callback replaces the position and retriggers the
effect, src/App.tsx lines 101-115 and 141-151). -/
def collectRun (dist : DistFn) (radius : ℚ) (positions : List UserLocation)
    (balls : List DragonBall) : List DragonBall :=
  positions.foldl (fun bs u => collectPass dist radius u bs) balls

/-- Per-ball view of a sequence of collection passes: the same fold applied
to one ball. -/
def collectBallRun (dist : DistFn) (radius : ℚ) (positions : List UserLocation)
    (b : DragonBall) : DragonBall :=
  positions.foldl (fun b u => collectBall dist radius u b) b

/-- Concrete fixtures used by the witness theorems. -/
def ballU : DragonBall :=
  { id := 1, lat := 0, lng := 0, stars := 1, found := false, name := "B1" }

def ballF : DragonBall :=
  { id := 2, lat := 0, lng := 0, stars := 2, found := true, name := "B2" }

def locO : UserLocation := { lat := 0, lng := 0, accuracy := 5 }

/-- Constant distance function, standing in for a haversine evaluation that
returns the given distance for the pair of points under consideration. -/
def distAt (q : ℚ) : DistFn := fun _ _ _ _ => q

/-- Concrete state used in witnesses: no scan done yet, GPS fix at the
origin, default modifiers, one unfound ball. -/
def stOne : RadarState :=
  { range := 10, userLocation := some locO, scanCenter := none,
    dragonBalls := [ballU], isLoading := false, error := none, design := "bulma",
    collectionRadius := 1/20, unlockedFeatures := [], currentRace := "Terrien" }

/-- Number of found targets: `state.dragonBalls.filter(b => b.found).length`
(src/App.tsx line 126). -/
def foundCount (st : RadarState) : ℕ := (st.dragonBalls.filter (·.found)).length

/-- Wish requests as issued by the four call sites of `handleShenronWish` in
src/App.tsx (design buttons line 393, race buttons line 433, the mastery
button line 481, feature buttons line 504).  In the source the triple
`(type, value, unlockKey)` at those sites is exactly one of these four
shapes; the mastery value is a number whose `toString`/`parseFloat` round
trip inside `checkPrerequisite` is exact for the radii involved, so it is
carried directly as a rational. -/
inductive Wish where
  | design (id : String)
  | race (id : String)
  | mastery (radius : ℚ)
  | unlock (key : String)
deriving Repr, DecidableEq

/-- Typed failure outcomes of a wish: the two `alert` early returns of
`handleShenronWish` (src/App.tsx lines 186-195). -/
inductive WishError where
  | insufficientTargets
  | prerequisiteNotMet (reason : String)
deriving Repr, DecidableEq

/-- Predicate `checkPrerequisite(type, id)` (src/App.tsx lines 153-183),
returning the `ok` flag together with the human-readable unmet reason.
Race ids other than the five listed fall to `(false, "Inconnu")`, mastery
radii other than the three listed fall to `(false, "Inconnu")` (this is also
where a non-numeric mastery id, `parseFloat` = NaN, would land), and unknown
unlock keys fall to the final `(false, "Bloqué")`. -/
def checkPrerequisite (st : RadarState) : Wish → Bool × String
  | .design _ => (true, "")
  | .race id =>
      if id = "Cyborg" then (true, "")
      else if id = "Namek" then (decide (st.collectionRadius ≤ 1/40), "Requis : Maîtrise Cyborg")
      else if id = "Démon" then (decide (st.collectionRadius ≤ 1/100), "Requis : Maîtrise Namek")
      else if id = "Saiyan" then (decide (st.currentRace = "Démon"), "Requis : Évolution Démon")
      else if id = "Dieu" then (decide (st.collectionRadius ≤ 1/1000), "Requis : Maîtrise Saiyan")
      else (false, "Inconnu")
  | .mastery r =>
      if r = 1/40 then (decide (st.currentRace = "Cyborg"), "Requis : Race Cyborg")
      else if r = 1/100 then (decide (st.currentRace = "Namek"), "Requis : Race Namek")
      else if r = 1/1000 then (decide (st.currentRace = "Saiyan"), "Requis : Race Saiyan")
      else (false, "Inconnu")
  | .unlock key =>
      if key = "scouter" then
        (decide (st.currentRace ∈ ["Cyborg", "Namek", "Démon", "Saiyan", "Dieu"]),
         "Requis : Race Cyborg")
      else if key = "custom_zone" then
        (decide ("scouter" ∈ st.unlockedFeatures), "Requis : Mode Scouter")
      else if key = "world_scan" then
        (decide ("custom_zone" ∈ st.unlockedFeatures ∧ st.currentRace = "Dieu" ∧
           st.collectionRadius ≤ 1/1000),
         "Requis : Dieu + Maîtrise Saiyan")
      else (false, "Bloqué")

/-- Successful branch of `handleShenronWish` (src/App.tsx lines 197-210):
the corresponding modifier is mutated, an unlock key not yet present is
appended to `unlockedFeatures`, and `dragonBalls` is always cleared. -/
def applyWish (st : RadarState) : Wish → RadarState
  | .design v => { st with design := v, dragonBalls := [] }
  | .race v => { st with currentRace := v, dragonBalls := [] }
  | .mastery v => { st with collectionRadius := v, dragonBalls := [] }
  | .unlock k =>
      { st with
        unlockedFeatures :=
          if k ∈ st.unlockedFeatures then st.unlockedFeatures
          else st.unlockedFeatures ++ [k],
        dragonBalls := [] }

/-- Operation `handleShenronWish` (src/App.tsx lines 185-211): rejects with
`InsufficientTargets` when fewer than 7 targets are found (this check comes
first and applies to every wish type, design included), then rejects with
`PrerequisiteNotMet` carrying the unmet reason, and otherwise applies the
wish. -/
def handleShenronWish (st : RadarState) (w : Wish) : Except WishError RadarState :=
  if foundCount st < 7 then .error .insufficientTargets
  else
    let c := checkPrerequisite st w
    if c.1 then .ok (applyWish st w) else .error (.prerequisiteNotMet c.2)

/-- Discriminates the cosmetic wish type. -/
def Wish.isDesign : Wish → Bool
  | .design _ => true
  | _ => false

/-- Seven balls all of which are found, used to exercise the success and
prerequisite branches of the wish handler. -/
def sevenFoundBalls : List DragonBall :=
  (List.range 7).map (fun i =>
    { id := i + 1, lat := 0, lng := 0, stars := i + 1, found := true,
      name := "Zone " ++ toString (i + 1) })

/-- Session state with the seven balls collected and default modifiers. -/
def stSeven : RadarState :=
  { range := 10, userLocation := some locO, scanCenter := none,
    dragonBalls := sevenFoundBalls, isLoading := false, error := none,
    design := "bulma", collectionRadius := 1/20, unlockedFeatures := [],
    currentRace := "Terrien" }

/-- Constant `MASTERY_LEVELS` radii in declaration order
(src/App.tsx lines 30-35): 0.05, 0.025, 0.01, 0.001 km. -/
def MASTERY_RADII : List ℚ := [1/20, 1/40, 1/100, 1/1000]

/-- Computation `MASTERY_LEVELS.find(m => m.radius < state.collectionRadius)`
performed by the mastery button (src/App.tsx line 480) to choose the next,
strictly smaller, radius to wish for. -/
def nextMastery (r : ℚ) : Option ℚ := MASTERY_RADII.find? (fun m => decide (m < r))

/-- Wish-granting actions as the src/App.tsx UI can trigger them: any design
id, any race id or unlock key (the buttons iterate the declared tables), and
for mastery only the single state-dependent "next level" wish of line 481
(`if (next) handleShenronWish('mastery', next.radius)`). -/
inductive WishAction where
  | design (id : String)
  | race (id : String)
  | masteryNext
  | unlock (key : String)
deriving Repr, DecidableEq

/-- One attempted grant through the UI: `some` is a successful grant and the
resulting state, `none` covers both a rejected wish and the mastery button
doing nothing when no smaller level exists. -/
def wishStep (st : RadarState) : WishAction → Option RadarState
  | .design id => (handleShenronWish st (.design id)).toOption
  | .race id => (handleShenronWish st (.race id)).toOption
  | .masteryNext =>
      match nextMastery st.collectionRadius with
      | none => none
      | some m => (handleShenronWish st (.mastery m)).toOption
  | .unlock key => (handleShenronWish st (.unlock key)).toOption

/-- A sequence of grants, all of which succeed. -/
def runWishes (st : RadarState) : List WishAction → Option RadarState
  | [] => some st
  | a :: rest =>
      match wishStep st a with
      | none => none
      | some st' => runWishes st' rest

/-!
Model of the App variant in src/unnamed/part_002, whose wish handler
(lines 148-175) and progression data (`RACES_DATA`, lines 27-38) differ from
src/App.tsx: design wishes bypass the seven-ball gate entirely and consume
nothing, there is no prerequisite predicate, and the per-race collection
radii grow along the progression.
-/
namespace Variant002

/-- Wish requests as issued by the part_002 call sites (design buttons line
295, race buttons line 326 passing the race object and its `wishId`, dist
buttons line 350 passing `r.radius` and `r.distWishId`, the custom-range
form line 373 and the world-scan button line 380).  The `range` payload
carries the result of `parseFloat(value)`: `some q` (with `q` nonzero) for a
parse yielding `q`, `none` when the parse gives NaN or 0 (both falsy, making
the source keep the previous range). -/
inductive Wish where
  | design (id : String)
  | race (raceId : String) (wishId : String)
  | dist (radius : ℚ) (wishId : String)
  | range (parsed : Option ℚ) (wishId : String)
  | worldScan (wishId : String)
deriving Repr, DecidableEq

/-- The `wishId` argument of a non-design wish. -/
def Wish.wishId : Wish → Option String
  | .design _ => none
  | .race _ w => some w
  | .dist _ w => some w
  | .range _ w => some w
  | .worldScan w => some w

/-- Non-design branch of the part_002 handler (lines 151-172): clear the
Target set, record the wish id if new, then apply the type-specific modifier
mutation. -/
def applyGated (st : RadarState) (w : Wish) : RadarState :=
  let st1 := { st with dragonBalls := ([] : List DragonBall) }
  let st2 :=
    match w.wishId with
    | none => st1
    | some wid =>
        if wid ∈ st1.unlockedFeatures then st1
        else { st1 with unlockedFeatures := st1.unlockedFeatures ++ [wid] }
  match w with
  | .design _ => st2
  | .race rid _ => { st2 with currentRace := rid }
  | .dist r _ => { st2 with collectionRadius := r }
  | .range parsed _ => { st2 with range := parsed.getD st2.range }
  | .worldScan _ => { st2 with range := 20000 }

/-- Operation `handleShenronWish` of src/unnamed/part_002 lines 148-175: a
design wish always succeeds and sets only the design; any other wish is
silently dropped unless exactly 7 targets are found (`hasSevenBalls`,
line 121, is `foundCount === 7`). -/
def handleShenronWish (st : RadarState) (w : Wish) : Option RadarState :=
  match w with
  | .design id => some { st with design := id }
  | _ => if foundCount st = 7 then some (applyGated st w) else none

/-- Default state of the part_002 variant (lines 65-76): same schema
defaults as src/App.tsx except that the Terrien progression entries start
unlocked. -/
def defaultState : RadarState :=
  { range := 10, userLocation := none, scanCenter := none, dragonBalls := [],
    isLoading := false, error := none, design := "bulma",
    collectionRadius := 1/20, unlockedFeatures := ["race_terrien", "dist_terrien"],
    currentRace := "Terrien" }

end Variant002

/-- The part_002 session right after collecting all seven balls, with the
initial Progression Modifiers untouched. -/
def v2Start : RadarState := { Variant002.defaultState with dragonBalls := sevenFoundBalls }

/-- Expected result of granting the Namek race wish from `v2Start`. -/
def v2Mid : RadarState :=
  { Variant002.defaultState with
    dragonBalls := [],
    unlockedFeatures := ["race_terrien", "dist_terrien", "race_namek"],
    currentRace := "Namek" }

/-- Expected result of then granting the Namek dist wish (radius 0.15 km,
from `RACES_DATA`) after re-collecting seven balls. -/
def v2End : RadarState :=
  { v2Mid with
    unlockedFeatures := ["race_terrien", "dist_terrien", "race_namek", "dist_namek"],
    collectionRadius := 3/20 }

/-- Parsed element of a well-formed oracle JSON response
(src/services/geminiService.ts response schema, lines 27-40): an object with
a name and numeric coordinates. -/
structure OracleItem where
  name : String
  lat : ℚ
  lng : ℚ
deriving Repr, DecidableEq

/-- Outcome of the oracle call as seen by the try/catch of
`generateValidCoordinates` (src/services/geminiService.ts lines 22-70 and
src/unnamed/part_000 lines 29-59): either some step threw (network failure,
unparseable JSON, or a parsed value with no `.slice`, e.g. a non-array) and
control reaches the catch block, or a JSON array of items was obtained. -/
inductive OracleOutcome where
  | thrown
  | response (items : List OracleItem)
deriving Repr, DecidableEq

/-- The `data.slice(0, 7).map((item, index) => ({...}))` numbering
(src/services/geminiService.ts lines 44-52): sequential ids and star counts
starting at `k + 1`, `found` false, coordinates and name copied. -/
def numberItems : ℕ → List OracleItem → List DragonBall
  | _, [] => []
  | k, item :: rest =>
      { id := k + 1, lat := item.lat, lng := item.lng, stars := k + 1,
        found := false, name := item.name } :: numberItems (k + 1) rest

/-- One ball of the catch-block fallback
(src/services/geminiService.ts lines 56-69): the random draw of
`Math.random()` twice through cos/sin is transcendental, so the resulting
per-ball offset pair `(dLat, dLng)` is supplied as the `offsets` parameter;
id, star count, found flag and placeholder name are as in the source. -/
def fallbackBall (center : UserLocation) (offsets : ℕ → ℚ × ℚ) (i : ℕ) : DragonBall :=
  { id := i + 1, lat := center.lat + (offsets i).1, lng := center.lng + (offsets i).2,
    stars := i + 1, found := false, name := "Inconnue - Zone " ++ toString (i + 1) }

/-- The `Array.from({ length: 7 }, (_, i) => ...)` of the fallback
(src/services/geminiService.ts lines 57-70): always exactly 7 balls. -/
def fallbackGeneration (center : UserLocation) (offsets : ℕ → ℚ × ℚ) :
    List DragonBall :=
  (List.range 7).map (fallbackBall center offsets)

/-- Operation `generateValidCoordinates`
(src/services/geminiService.ts lines 6-71): on a parsed array response it
returns `data.slice(0, 7)` renumbered — with no check that at least 7 items
were produced — and on any thrown failure it returns the 7-ball fallback. -/
def generateValidCoordinates (center : UserLocation) (offsets : ℕ → ℚ × ℚ) :
    OracleOutcome → List DragonBall
  | .thrown => fallbackGeneration center offsets
  | .response items => numberItems 0 (items.take 7)

/-- Function `getRelativePos(lat, lng)` shared by the radar components
(src/components/RadarUI.tsx lines 36-45 and src/unnamed/part_001 lines
15-23): flat projection of a target into percent coordinates on the radar
square, center at (50, 50).  The `Math.cos(userLoc.lat * Math.PI / 180)`
factor is transcendental and is passed as the `cosULat` parameter. -/
def getRelativePos (range uLat uLng cosULat lat lng : ℚ) : ℚ × ℚ :=
  let yKm := (lat - uLat) * 111
  let xKm := (lng - uLng) * (111 * cosULat)
  (50 + xKm / range * 50, 50 - yKm / range * 50)

/-- Squared distance from the radar center in percent units.  The source
(src/components/RadarUI.tsx line 82) takes `Math.sqrt` of this and compares
with 50; both sides being nonnegative, that comparison is equivalent to
comparing this square with 2500. -/
def distFromCenterSq (p : ℚ × ℚ) : ℚ := (p.1 - 50) ^ 2 + (p.2 - 50) ^ 2

/-- Culling rule of src/components/RadarUI.tsx lines 80-83: the ball is
rendered exactly when its distance from the center is at most 50 percent
(the source returns null when `distFromCenter > 50`). -/
def radarRendersCircle (p : ℚ × ℚ) : Bool := decide (distFromCenterSq p ≤ 2500)

/-- Culling rule of src/unnamed/part_001 lines 53-55: the ball is rendered
exactly when it lies inside the enclosing percent square (the source returns
null when `x < 0 || x > 100 || y < 0 || y > 100`). -/
def radarRendersSquare (p : ℚ × ℚ) : Bool :=
  !(decide (p.1 < 0) || decide (p.1 > 100) || decide (p.2 < 0) || decide (p.2 > 100))

/-- Persisted snapshot as read back from `localStorage` at startup
(src/App.tsx lines 67-82): any subset of the session-state fields may be
present (`some`), and fields missing from an older save are `none`.  A field
that is nullable in the live state (e.g. `userLocation`) serializes its null
as JSON `null`, hence the nested `Option`. -/
structure SavedState where
  range : Option ℚ := none
  userLocation : Option (Option UserLocation) := none
  scanCenter : Option (Option UserLocation) := none
  dragonBalls : Option (List DragonBall) := none
  isLoading : Option Bool := none
  error : Option (Option String) := none
  design : Option String := none
  collectionRadius : Option ℚ := none
  unlockedFeatures : Option (List String) := none
  currentRace : Option String := none
deriving Repr, DecidableEq

/-- The `defaultState` literal of the `useState` initializer
(src/App.tsx lines 69-80). -/
def defaultState : RadarState :=
  { range := 10, userLocation := none, scanCenter := none, dragonBalls := [],
    isLoading := false, error := none, design := "bulma",
    collectionRadius := 1/20, unlockedFeatures := [], currentRace := "Terrien" }

/-- Startup reconstruction (src/App.tsx line 81):
`saved ? { ...defaultState, ...JSON.parse(saved) } : defaultState` — the
snapshot is merged field-by-field over the schema defaults, a present field
overriding the default and an absent field keeping it. -/
def loadState : Option SavedState → RadarState
  | none => defaultState
  | some s =>
      { range := s.range.getD defaultState.range,
        userLocation := s.userLocation.getD defaultState.userLocation,
        scanCenter := s.scanCenter.getD defaultState.scanCenter,
        dragonBalls := s.dragonBalls.getD defaultState.dragonBalls,
        isLoading := s.isLoading.getD defaultState.isLoading,
        error := s.error.getD defaultState.error,
        design := s.design.getD defaultState.design,
        collectionRadius := s.collectionRadius.getD defaultState.collectionRadius,
        unlockedFeatures := s.unlockedFeatures.getD defaultState.unlockedFeatures,
        currentRace := s.currentRace.getD defaultState.currentRace }

/-- Serialization performed by the persistence effect (src/App.tsx lines
97-99): `JSON.stringify(state)` writes every field of the session state, so
the resulting snapshot has every field present. -/
def saveState (st : RadarState) : SavedState :=
  { range := some st.range, userLocation := some st.userLocation,
    scanCenter := some st.scanCenter, dragonBalls := some st.dragonBalls,
    isLoading := some st.isLoading, error := some st.error,
    design := some st.design, collectionRadius := some st.collectionRadius,
    unlockedFeatures := some st.unlockedFeatures, currentRace := some st.currentRace }

theorem length_collectPass (dist : DistFn) (radius : ℚ) (u : UserLocation)
    (balls : List DragonBall) : (collectPass dist radius u balls).length = balls.length := by
  simp [collectPass]

theorem collectBall_found_of_found (dist : DistFn) (radius : ℚ) (u : UserLocation)
    (b : DragonBall) (hb : b.found = true) : (collectBall dist radius u b).found = true := by
  simp [collectBall, hb]

theorem collectBall_id (dist : DistFn) (radius : ℚ) (u : UserLocation) (b : DragonBall) :
    (collectBall dist radius u b).id = b.id ∧
    (collectBall dist radius u b).lat = b.lat ∧
    (collectBall dist radius u b).lng = b.lng ∧
    (collectBall dist radius u b).stars = b.stars ∧
    (collectBall dist radius u b).name = b.name := by
  unfold collectBall
  split <;> [skip; split] <;> simp

theorem collectBall_idem (dist : DistFn) (radius : ℚ) (u : UserLocation) (b : DragonBall) :
    collectBall dist radius u (collectBall dist radius u b) = collectBall dist radius u b := by
  unfold collectBall
  by_cases hf : b.found
  · simp [hf]
  · by_cases hd : dist u.lat u.lng b.lat b.lng < radius
    · simp [hf, hd]
    · simp [hf, hd]

theorem getElem_collectPass (dist : DistFn) (radius : ℚ) (u : UserLocation)
    (balls : List DragonBall) (i : ℕ) (h : i < balls.length)
    (h2 : i < (collectPass dist radius u balls).length) :
    (collectPass dist radius u balls)[i] = collectBall dist radius u balls[i] := by
  simp [collectPass]

theorem collectRun_cons (dist : DistFn) (radius : ℚ) (u : UserLocation)
    (positions : List UserLocation) (balls : List DragonBall) :
    collectRun dist radius (u :: positions) balls =
      collectRun dist radius positions (collectPass dist radius u balls) := by
  simp [collectRun]

theorem length_collectRun (dist : DistFn) (radius : ℚ) (positions : List UserLocation)
    (balls : List DragonBall) :
    (collectRun dist radius positions balls).length = balls.length := by
  induction positions generalizing balls with
  | nil => simp [collectRun]
  | cons u rest ih => rw [collectRun_cons, ih, length_collectPass]

theorem collectRun_eq_map (dist : DistFn) (radius : ℚ) (positions : List UserLocation)
    (balls : List DragonBall) :
    collectRun dist radius positions balls =
      balls.map (collectBallRun dist radius positions) := by
  induction positions generalizing balls with
  | nil =>
      have hid : collectBallRun dist radius [] = fun b => b := rfl
      simp [collectRun, hid]
  | cons u rest ih =>
      rw [collectRun_cons, ih]
      simp only [collectPass, List.map_map]
      rfl

theorem collectBallRun_found_of_found (dist : DistFn) (radius : ℚ)
    (positions : List UserLocation) (b : DragonBall) (hb : b.found = true) :
    (collectBallRun dist radius positions b).found = true := by
  induction positions generalizing b with
  | nil => simpa [collectBallRun] using hb
  | cons u rest ih =>
      have : collectBallRun dist radius (u :: rest) b =
          collectBallRun dist radius rest (collectBall dist radius u b) := rfl
      rw [this]
      exact ih _ (collectBall_found_of_found dist radius u b hb)

/-- C5: one Collection Engine pass (src/App.tsx lines 141-151) sets `found`
on a not-yet-found target if and only if the computed distance from the
player position to the target is strictly less than `collectionRadius`;
in particular with radius 0.05 km a target whose distance evaluates to
exactly 0.05 stays unfound, and one at 0.049 becomes found. -/
theorem collection_threshold (dist : DistFn) (radius : ℚ) (u : UserLocation)
    (balls : List DragonBall) (i : ℕ) (h : i < balls.length)
    (h2 : i < (collectPass dist radius u balls).length)
    (hnf : balls[i].found = false) :
    ((collectPass dist radius u balls)[i].found = true ↔
        dist u.lat u.lng balls[i].lat balls[i].lng < radius) ∧
    (radius = 1/20 → dist u.lat u.lng balls[i].lat balls[i].lng = 1/20 →
        (collectPass dist radius u balls)[i].found = false) ∧
    (radius = 1/20 → dist u.lat u.lng balls[i].lat balls[i].lng = 49/1000 →
        (collectPass dist radius u balls)[i].found = true) := by
  rw [getElem_collectPass dist radius u balls i h h2]
  unfold collectBall
  rw [hnf]
  rw [if_neg Bool.false_ne_true]
  refine ⟨?_, ?_, ?_⟩
  · by_cases hd : dist u.lat u.lng balls[i].lat balls[i].lng < radius
    · simp [hd]
    · simp [hd, hnf]
  · intro hr hdist
    subst hr
    rw [hdist, if_neg (lt_irrefl _)]
    exact hnf
  · intro hr hdist
    subst hr
    rw [hdist, if_pos (by norm_num : (49 : ℚ)/1000 < 1/20)]

theorem collection_threshold_witness :
    ((collectPass (distAt (1/20)) (1/20) locO [ballU]).get
        ⟨0, by simp [collectPass]⟩).found = false ∧
    ((collectPass (distAt (49/1000)) (1/20) locO [ballU]).get
        ⟨0, by simp [collectPass]⟩).found = true := by
  constructor
  · exact (collection_threshold (distAt (1/20)) (1/20) locO [ballU] 0 (by simp)
      (by simp [collectPass]) rfl).2.1 rfl rfl
  · exact (collection_threshold (distAt (49/1000)) (1/20) locO [ballU] 0 (by simp)
      (by simp [collectPass]) rfl).2.2 rfl rfl

/-- C6: once a target's `found` flag is true, no later sequence of Collection
Engine passes (src/App.tsx lines 141-151) under any later player positions
ever resets it to false: already-found balls are returned unchanged by
`collectBall` and the pass only ever sets `found := true`. -/
theorem collection_found_monotone (dist : DistFn) (radius : ℚ)
    (positions : List UserLocation) (balls : List DragonBall) (i : ℕ)
    (h : i < balls.length) (h2 : i < (collectRun dist radius positions balls).length)
    (hf : balls[i].found = true) :
    (collectRun dist radius positions balls)[i].found = true := by
  have hg : (collectRun dist radius positions balls)[i] =
      collectBallRun dist radius positions balls[i] := by
    simp [collectRun_eq_map]
  rw [hg]
  exact collectBallRun_found_of_found dist radius positions balls[i] hf

theorem collection_found_monotone_witness :
    ((collectRun (distAt 99999) (1/20) [locO, { lat := 80, lng := 170, accuracy := 5 }]
        [ballF]).get ⟨0, by simp [length_collectRun]⟩).found = true := by
  exact collection_found_monotone (distAt 99999) (1/20)
    [locO, { lat := 80, lng := 170, accuracy := 5 }] [ballF] 0 (by simp)
    (by simp [length_collectRun]) rfl

/-- C7: the Collection Engine pass is idempotent, both as a pure pass over a
target list and at the level of the whole session state touched by the
collection effect (src/App.tsx lines 141-151): applying it twice with the
same position, radius and distance function equals applying it once. -/
theorem collection_idempotent (dist : DistFn) (radius : ℚ) (u : UserLocation)
    (balls : List DragonBall) (st : RadarState) :
    collectPass dist radius u (collectPass dist radius u balls) =
      collectPass dist radius u balls ∧
    collectEffect dist (collectEffect dist st) = collectEffect dist st := by
  have hpass : ∀ (r : ℚ) (v : UserLocation) (bs : List DragonBall),
      collectPass dist r v (collectPass dist r v bs) = collectPass dist r v bs := by
    intro r v bs
    simp only [collectPass, List.map_map]
    apply List.map_congr_left
    intro b _
    exact collectBall_idem dist r v b
  refine ⟨hpass radius u balls, ?_⟩
  cases hu : st.userLocation with
  | none => simp [collectEffect, hu]
  | some u' =>
      by_cases hlen : st.dragonBalls.length = 0
      · simp [collectEffect, hu, hlen]
      · have hlen2 : ¬(collectPass dist st.collectionRadius u' st.dragonBalls).length = 0 := by
          rw [length_collectPass]; exact hlen
        simp [collectEffect, hu, hlen, hlen2, hpass]

/-- C10: the collection effect (src/App.tsx lines 141-151) mutates nothing
but `found` flags: it preserves every other session-state field, the number
and order of targets, and each target's id, coordinate, star count and name
(the `setState` of the effect spreads the previous state and replaces only
`dragonBalls`, and `collectBall` touches only `found`). -/
theorem collection_frame (dist : DistFn) (st : RadarState) :
    (collectEffect dist st).range = st.range ∧
    (collectEffect dist st).userLocation = st.userLocation ∧
    (collectEffect dist st).scanCenter = st.scanCenter ∧
    (collectEffect dist st).isLoading = st.isLoading ∧
    (collectEffect dist st).error = st.error ∧
    (collectEffect dist st).design = st.design ∧
    (collectEffect dist st).collectionRadius = st.collectionRadius ∧
    (collectEffect dist st).unlockedFeatures = st.unlockedFeatures ∧
    (collectEffect dist st).currentRace = st.currentRace ∧
    (collectEffect dist st).dragonBalls.length = st.dragonBalls.length ∧
    ∀ i (h : i < st.dragonBalls.length)
      (h2 : i < (collectEffect dist st).dragonBalls.length),
      (collectEffect dist st).dragonBalls[i].id = st.dragonBalls[i].id ∧
      (collectEffect dist st).dragonBalls[i].lat = st.dragonBalls[i].lat ∧
      (collectEffect dist st).dragonBalls[i].lng = st.dragonBalls[i].lng ∧
      (collectEffect dist st).dragonBalls[i].stars = st.dragonBalls[i].stars ∧
      (collectEffect dist st).dragonBalls[i].name = st.dragonBalls[i].name := by
  cases hu : st.userLocation with
  | none => simp [collectEffect, hu]
  | some u =>
      by_cases hlen : st.dragonBalls.length = 0
      · simp [collectEffect, hu, hlen]
      · have heff : collectEffect dist st =
            { st with dragonBalls := collectPass dist st.collectionRadius u st.dragonBalls } := by
          simp [collectEffect, hu, hlen]
        rw [heff]
        refine ⟨rfl, hu, rfl, rfl, rfl, rfl, rfl, rfl, rfl,
          length_collectPass dist st.collectionRadius u st.dragonBalls, ?_⟩
        intro i h h2
        have hi2 : i < (collectPass dist st.collectionRadius u st.dragonBalls).length := by
          rw [length_collectPass]; exact h
        simp only
        rw [getElem_collectPass dist st.collectionRadius u st.dragonBalls i h hi2]
        exact collectBall_id dist st.collectionRadius u st.dragonBalls[i]

theorem collection_frame_witness :
    ((collectEffect (distAt (1/100)) stOne).dragonBalls.get
        ⟨0, by simp [collectEffect, stOne, collectPass, locO, ballU]⟩).stars =
      (stOne.dragonBalls.get ⟨0, by simp [stOne]⟩).stars := by
  exact ((collection_frame (distAt (1/100)) stOne).2.2.2.2.2.2.2.2.2.2 0
    (by simp [stOne]) (by simp [collectEffect, stOne, collectPass, locO, ballU])).2.2.2.1

/-- C4: for every gated (non-design) wish, `handleShenronWish`
(src/App.tsx lines 185-211) fails with `InsufficientTargets` whenever fewer
than 7 targets are found (the found-count guard runs first, so this holds
even when the prerequisite is met), fails with `PrerequisiteNotMet` and the
node's reason when all 7 are found but `checkPrerequisite` is false, succeeds
exactly when both conditions hold, and on success clears the Target set. -/
theorem gated_wish_gating (st : RadarState) (w : Wish) (hw : w.isDesign = false) :
    (foundCount st < 7 → handleShenronWish st w = .error .insufficientTargets) ∧
    (7 ≤ foundCount st → (checkPrerequisite st w).1 = false →
        handleShenronWish st w = .error (.prerequisiteNotMet (checkPrerequisite st w).2)) ∧
    ((∃ st', handleShenronWish st w = .ok st') ↔
        (7 ≤ foundCount st ∧ (checkPrerequisite st w).1 = true)) ∧
    (∀ st', handleShenronWish st w = .ok st' → st'.dragonBalls = []) := by
  refine ⟨?_, ?_, ?_, ?_⟩
  · intro hlt
    simp [handleShenronWish, hlt]
  · intro hge hpre
    rw [handleShenronWish, if_neg (by omega), if_neg (by simp [hpre])]
  · constructor
    · rintro ⟨st', hok⟩
      rw [handleShenronWish] at hok
      by_cases hlt : foundCount st < 7
      · simp [hlt] at hok
      · by_cases hpre : (checkPrerequisite st w).1
        · exact ⟨by omega, hpre⟩
        · simp [hlt, hpre] at hok
    · rintro ⟨hge, hpre⟩
      exact ⟨applyWish st w, by rw [handleShenronWish, if_neg (by omega), if_pos hpre]⟩
  · intro st' hok
    rw [handleShenronWish] at hok
    by_cases hlt : foundCount st < 7
    · simp [hlt] at hok
    · by_cases hpre : (checkPrerequisite st w).1
      · simp only [if_neg hlt, if_pos hpre, Except.ok.injEq] at hok
        subst hok
        cases w with
        | design id => simp [Wish.isDesign] at hw
        | race id => rfl
        | mastery r => rfl
        | unlock k => rfl
      · simp [hlt, hpre] at hok

theorem gated_wish_gating_witness :
    handleShenronWish stOne (.race "Cyborg") = .error .insufficientTargets ∧
    handleShenronWish stSeven (.mastery (1/40)) =
      .error (.prerequisiteNotMet "Requis : Race Cyborg") ∧
    (∃ st', handleShenronWish stSeven (.race "Cyborg") = .ok st') ∧
    (∀ st', handleShenronWish stSeven (.race "Cyborg") = .ok st' →
      st'.dragonBalls = []) := by
  refine ⟨?_, ?_, ?_, ?_⟩
  · exact (gated_wish_gating stOne (.race "Cyborg") rfl).1 (by decide)
  · have h2 : checkPrerequisite stSeven (.mastery (1/40)) = (false, "Requis : Race Cyborg") := by
      norm_num [checkPrerequisite, stSeven]
      decide
    have h := (gated_wish_gating stSeven (.mastery (1/40)) rfl).2.1 (by decide)
      (by rw [h2])
    rw [h2] at h
    exact h
  · exact (gated_wish_gating stSeven (.race "Cyborg") rfl).2.2.1.mpr ⟨by decide, by decide⟩
  · exact (gated_wish_gating stSeven (.race "Cyborg") rfl).2.2.2

theorem applyWish_features_mono (st : RadarState) (w : Wish) (f : String)
    (hf : f ∈ st.unlockedFeatures) : f ∈ (applyWish st w).unlockedFeatures := by
  cases w with
  | design id => exact hf
  | race id => exact hf
  | mastery r => exact hf
  | unlock k =>
      simp only [applyWish]
      by_cases hk : k ∈ st.unlockedFeatures
      · simpa [hk] using hf
      · simp only [hk, if_neg hk]
        exact List.mem_append_left _ hf

theorem handleShenronWish_features_mono (st st' : RadarState) (w : Wish)
    (h : handleShenronWish st w = .ok st') (f : String)
    (hf : f ∈ st.unlockedFeatures) : f ∈ st'.unlockedFeatures := by
  rw [handleShenronWish] at h
  by_cases hlt : foundCount st < 7
  · simp [hlt] at h
  · by_cases hpre : (checkPrerequisite st w).1
    · simp only [if_neg hlt, if_pos hpre, Except.ok.injEq] at h
      subst h
      exact applyWish_features_mono st w f hf
    · simp [hlt, hpre] at h

theorem wishStep_radius_mono (st st' : RadarState) (a : WishAction)
    (h : wishStep st a = some st') :
    st'.collectionRadius ≤ st.collectionRadius ∧
    ∀ f ∈ st.unlockedFeatures, f ∈ st'.unlockedFeatures := by
  cases a with
  | design id =>
      simp only [wishStep, Except.toOption] at h
      cases hw : handleShenronWish st (.design id) with
      | error e => rw [hw] at h; simp at h
      | ok st2 =>
          rw [hw] at h
          simp only [Option.some.injEq] at h
          subst h
          have hfe := handleShenronWish_features_mono st st2 (.design id) hw
          rw [handleShenronWish] at hw
          by_cases hlt : foundCount st < 7
          · simp [hlt] at hw
          · by_cases hpre : (checkPrerequisite st (.design id)).1
            · simp only [if_neg hlt, if_pos hpre, Except.ok.injEq] at hw
              subst hw
              exact ⟨le_refl _, hfe⟩
            · simp [hlt, hpre] at hw
  | race id =>
      simp only [wishStep, Except.toOption] at h
      cases hw : handleShenronWish st (.race id) with
      | error e => rw [hw] at h; simp at h
      | ok st2 =>
          rw [hw] at h
          simp only [Option.some.injEq] at h
          subst h
          have hfe := handleShenronWish_features_mono st st2 (.race id) hw
          rw [handleShenronWish] at hw
          by_cases hlt : foundCount st < 7
          · simp [hlt] at hw
          · by_cases hpre : (checkPrerequisite st (.race id)).1
            · simp only [if_neg hlt, if_pos hpre, Except.ok.injEq] at hw
              subst hw
              exact ⟨le_refl _, hfe⟩
            · simp [hlt, hpre] at hw
  | masteryNext =>
      simp only [wishStep] at h
      cases hm : nextMastery st.collectionRadius with
      | none => rw [hm] at h; simp at h
      | some m =>
          rw [hm] at h
          have hlt : m < st.collectionRadius := by
            have := List.find?_some (p := fun m => decide (m < st.collectionRadius)) hm
            simpa using this
          simp only [Except.toOption] at h
          cases hw : handleShenronWish st (.mastery m) with
          | error e => rw [hw] at h; simp at h
          | ok st2 =>
              rw [hw] at h
              simp only [Option.some.injEq] at h
              subst h
              have hfe := handleShenronWish_features_mono st st2 (.mastery m) hw
              rw [handleShenronWish] at hw
              by_cases hl : foundCount st < 7
              · simp [hl] at hw
              · by_cases hpre : (checkPrerequisite st (.mastery m)).1
                · simp only [if_neg hl, if_pos hpre, Except.ok.injEq] at hw
                  subst hw
                  exact ⟨le_of_lt hlt, hfe⟩
                · simp [hl, hpre] at hw
  | unlock key =>
      simp only [wishStep, Except.toOption] at h
      cases hw : handleShenronWish st (.unlock key) with
      | error e => rw [hw] at h; simp at h
      | ok st2 =>
          rw [hw] at h
          simp only [Option.some.injEq] at h
          subst h
          have hfe := handleShenronWish_features_mono st st2 (.unlock key) hw
          rw [handleShenronWish] at hw
          by_cases hlt : foundCount st < 7
          · simp [hlt] at hw
          · by_cases hpre : (checkPrerequisite st (.unlock key)).1
            · simp only [if_neg hlt, if_pos hpre, Except.ok.injEq] at hw
              subst hw
              exact ⟨le_refl _, hfe⟩
            · simp [hlt, hpre] at hw

/-- C3 counterexample: in the src/unnamed/part_002 variant, a sequence of
two successful non-cosmetic grants starting from the initial modifiers — the
Namek race wish, then (after re-collecting seven balls) the Namek dist wish
with the `RACES_DATA` radius 0.15 — ends with `collectionRadius` 0.15 km,
three times its initial 0.05 km: the radius increased, so it is not
non-increasing across the sequence. -/
theorem wish_radius_increases_in_variant_cex :
    Variant002.handleShenronWish v2Start (.race "Namek" "race_namek") = some v2Mid ∧
    Variant002.handleShenronWish { v2Mid with dragonBalls := sevenFoundBalls }
      (.dist (3/20) "dist_namek") = some v2End ∧
    v2Start.collectionRadius = 1/20 ∧ v2End.collectionRadius = 3/20 ∧
    v2Start.collectionRadius < v2End.collectionRadius := by
  refine ⟨?_, ?_, rfl, rfl, by norm_num [v2Start, v2End, v2Mid, Variant002.defaultState]⟩
  · rfl
  · rfl

theorem variant002_features_mono (st st' : RadarState) (w : Variant002.Wish)
    (h : Variant002.handleShenronWish st w = some st') :
    ∀ f ∈ st.unlockedFeatures, f ∈ st'.unlockedFeatures := by
  intro f hf
  cases w with
  | design id =>
      simp only [Variant002.handleShenronWish, Option.some.injEq] at h
      subst h
      exact hf
  | race rid wid =>
      simp only [Variant002.handleShenronWish] at h
      by_cases h7 : foundCount st = 7
      · rw [if_pos h7] at h
        simp only [Option.some.injEq] at h
        subst h
        simp only [Variant002.applyGated, Variant002.Wish.wishId]
        by_cases hw : wid ∈ st.unlockedFeatures
        · simpa [hw] using hf
        · simp only [hw, if_neg hw]
          exact List.mem_append_left _ hf
      · simp [h7] at h
  | dist r wid =>
      simp only [Variant002.handleShenronWish] at h
      by_cases h7 : foundCount st = 7
      · rw [if_pos h7] at h
        simp only [Option.some.injEq] at h
        subst h
        simp only [Variant002.applyGated, Variant002.Wish.wishId]
        by_cases hw : wid ∈ st.unlockedFeatures
        · simpa [hw] using hf
        · simp only [hw, if_neg hw]
          exact List.mem_append_left _ hf
      · simp [h7] at h
  | range parsed wid =>
      simp only [Variant002.handleShenronWish] at h
      by_cases h7 : foundCount st = 7
      · rw [if_pos h7] at h
        simp only [Option.some.injEq] at h
        subst h
        simp only [Variant002.applyGated, Variant002.Wish.wishId]
        by_cases hw : wid ∈ st.unlockedFeatures
        · simpa [hw] using hf
        · simp only [hw, if_neg hw]
          exact List.mem_append_left _ hf
      · simp [h7] at h
  | worldScan wid =>
      simp only [Variant002.handleShenronWish] at h
      by_cases h7 : foundCount st = 7
      · rw [if_pos h7] at h
        simp only [Option.some.injEq] at h
        subst h
        simp only [Variant002.applyGated, Variant002.Wish.wishId]
        by_cases hw : wid ∈ st.unlockedFeatures
        · simpa [hw] using hf
        · simp only [hw, if_neg hw]
          exact List.mem_append_left _ hf
      · simp [h7] at h

/-- C3 (amended): across any sequence of successful wish grants as the
src/App.tsx UI can issue them (its mastery button only ever requests the
next strictly smaller `MASTERY_LEVELS` radius), `collectionRadius` is
non-increasing and `unlockedFeatures` is non-decreasing set-wise; and in the
src/unnamed/part_002 variant every successful grant still only ever grows
`unlockedFeatures`, although there `collectionRadius` increases along the
progression (see the counterexample). -/
theorem wish_sequence_monotone (st st' : RadarState) (acts : List WishAction)
    (h : runWishes st acts = some st') :
    (st'.collectionRadius ≤ st.collectionRadius ∧
      ∀ f ∈ st.unlockedFeatures, f ∈ st'.unlockedFeatures) ∧
    ∀ (t t' : RadarState) (w : Variant002.Wish),
      Variant002.handleShenronWish t w = some t' →
      ∀ f ∈ t.unlockedFeatures, f ∈ t'.unlockedFeatures := by
  refine ⟨?_, variant002_features_mono⟩
  induction acts generalizing st with
  | nil =>
      simp only [runWishes, Option.some.injEq] at h
      subst h
      exact ⟨le_refl _, fun f hf => hf⟩
  | cons a rest ih =>
      simp only [runWishes] at h
      cases hs : wishStep st a with
      | none => rw [hs] at h; simp at h
      | some st1 =>
          rw [hs] at h
          have hstep := wishStep_radius_mono st st1 a hs
          have hrest := ih st1 h
          exact ⟨le_trans hrest.1 hstep.1, fun f hf => hrest.2 f (hstep.2 f hf)⟩

theorem wish_sequence_monotone_witness :
    (∃ st', runWishes stSeven [WishAction.race "Cyborg"] = some st' ∧
        st'.collectionRadius ≤ stSeven.collectionRadius) ∧
    (∃ t', Variant002.handleShenronWish v2Start (.race "Namek" "race_namek") = some t' ∧
        "dist_terrien" ∈ t'.unlockedFeatures) := by
  constructor
  · have hrun : runWishes stSeven [WishAction.race "Cyborg"] =
        some (applyWish stSeven (.race "Cyborg")) := rfl
    exact ⟨applyWish stSeven (.race "Cyborg"), hrun,
      ((wish_sequence_monotone stSeven (applyWish stSeven (.race "Cyborg"))
        [WishAction.race "Cyborg"] hrun).1).1⟩
  · have hv : Variant002.handleShenronWish v2Start (.race "Namek" "race_namek") =
        some v2Mid := rfl
    exact ⟨v2Mid, hv,
      (wish_sequence_monotone stSeven stSeven [] rfl).2 v2Start v2Mid
        (.race "Namek" "race_namek") hv "dist_terrien" (by decide)⟩

/-- C1 counterexample: in src/App.tsx a cosmetic (design) wish is not free —
with zero found targets `handleShenronWish('design', ...)` hits the
seven-ball guard (line 186) and fails instead of succeeding, and when it
does succeed it clears the non-empty Target set (line 206) rather than
consuming no state beyond the modifier change. -/
theorem design_wish_free_cex :
    handleShenronWish stOne (.design "capsule") = .error .insufficientTargets ∧
    handleShenronWish stSeven (.design "capsule") =
      .ok { stSeven with design := "capsule", dragonBalls := [] } ∧
    stSeven.dragonBalls ≠ [] := by
  refine ⟨rfl, rfl, by decide⟩

/-- C1 (amended): cosmetic (design) wishes are free only in the
src/unnamed/part_002 variant, where they always succeed whatever the found
count, undergo no prerequisite check, and change nothing but the active
design; in src/App.tsx a design wish is subject to the same seven-ball cost
as every other wish (its prerequisite check is trivially true), and on
success it also clears the Target set. -/
theorem design_wish_behavior (st : RadarState) (id : String) :
    Variant002.handleShenronWish st (.design id) = some { st with design := id } ∧
    (foundCount st < 7 → handleShenronWish st (.design id) = .error .insufficientTargets) ∧
    (7 ≤ foundCount st →
      handleShenronWish st (.design id) = .ok { st with design := id, dragonBalls := [] }) := by
  refine ⟨rfl, ?_, ?_⟩
  · intro hlt
    simp [handleShenronWish, hlt]
  · intro hge
    rw [handleShenronWish, if_neg (by omega)]
    rfl

theorem design_wish_behavior_witness :
    Variant002.handleShenronWish stOne (.design "namek") =
      some { stOne with design := "namek" } ∧
    handleShenronWish stOne (.design "namek") = .error .insufficientTargets ∧
    handleShenronWish stSeven (.design "namek") =
      .ok { stSeven with design := "namek", dragonBalls := [] } := by
  refine ⟨(design_wish_behavior stOne "namek").1,
    (design_wish_behavior stOne "namek").2.1 (by decide),
    (design_wish_behavior stSeven "namek").2.2 (by decide)⟩

theorem length_numberItems (k : ℕ) (l : List OracleItem) :
    (numberItems k l).length = l.length := by
  induction l generalizing k with
  | nil => rfl
  | cons a rest ih => simp [numberItems, ih]

theorem numberItems_spec (k : ℕ) (l : List OracleItem) (i : ℕ)
    (h : i < (numberItems k l).length) :
    (numberItems k l)[i].id = k + i + 1 ∧
    (numberItems k l)[i].stars = k + i + 1 ∧
    (numberItems k l)[i].found = false := by
  induction l generalizing k i with
  | nil => simp [numberItems] at h
  | cons a rest ih =>
      cases i with
      | zero => simp [numberItems]
      | succ j =>
          have h' : j < (numberItems (k + 1) rest).length := by
            simpa [numberItems] using h
          have hrec := ih (k + 1) j h'
          simp only [numberItems, List.getElem_cons_succ]
          exact ⟨hrec.1.trans (by omega), hrec.2.1.trans (by omega), hrec.2.2⟩

/-- C2 counterexample: a well-formed oracle response containing a single
item makes `generateValidCoordinates` return one target, not 7 — the code
truncates with `slice(0, 7)` but never rejects or replaces a response with
fewer than 7 items. -/
theorem short_oracle_response_cex :
    (generateValidCoordinates locO (fun _ => (0, 0))
      (.response [{ name := "Tour Eiffel", lat := 4887/100, lng := 223/100 }])).length
      = 1 ∧ (1 : ℕ) ≠ 7 := by
  exact ⟨rfl, by decide⟩

/-- C2 (amended): `generateValidCoordinates` returns, for every target
produced, sequential ids 1..n and star counts 1..n with `found` false; on a
thrown failure it returns exactly 7 fallback targets, and on a parsed array
response it returns `min(length, 7)` targets — so a well-formed response
with at least 7 items yields exactly 7, but one with fewer items yields
fewer than 7 rather than being rejected or replaced. -/
theorem generate_valid_coordinates_shape (center : UserLocation)
    (offsets : ℕ → ℚ × ℚ) (o : OracleOutcome) :
    (generateValidCoordinates center offsets o).length =
      (match o with
        | .thrown => 7
        | .response items => min items.length 7) ∧
    ∀ i (h : i < (generateValidCoordinates center offsets o).length),
      (generateValidCoordinates center offsets o)[i].id = i + 1 ∧
      (generateValidCoordinates center offsets o)[i].stars = i + 1 ∧
      (generateValidCoordinates center offsets o)[i].found = false := by
  cases o with
  | thrown =>
      refine ⟨by simp [generateValidCoordinates, fallbackGeneration], ?_⟩
      intro i h
      have hi : i < 7 := by
        simpa [generateValidCoordinates, fallbackGeneration] using h
      simp [generateValidCoordinates, fallbackGeneration, fallbackBall]
  | response items =>
      refine ⟨by simp [generateValidCoordinates, length_numberItems, Nat.min_comm], ?_⟩
      intro i h
      have h' : i < (numberItems 0 (items.take 7)).length := by
        simpa [generateValidCoordinates] using h
      have := numberItems_spec 0 (items.take 7) i h'
      simpa [generateValidCoordinates] using this

theorem generate_valid_coordinates_shape_witness :
    (generateValidCoordinates locO (fun _ => (0, 0)) .thrown).length = 7 ∧
    ((generateValidCoordinates locO (fun _ => (0, 0)) .thrown).get
      ⟨0, by simp [generateValidCoordinates, fallbackGeneration]⟩).id = 1 := by
  have h := generate_valid_coordinates_shape locO (fun _ => (0, 0)) .thrown
  exact ⟨h.1, (h.2 0 (by simp [generateValidCoordinates, fallbackGeneration])).1⟩

/-- C8 counterexample: with range 10 km, a centered user and a target 9 km
east and 9 km north, the projected point (95, 5) has normalized radial
distance over 0.5 from the center (squared percent distance 4050 > 2500),
yet the cited code of src/unnamed/part_001 lines 53-55 still renders it,
because it culls by the enclosing square and not by the circular face. -/
theorem square_culling_cex :
    radarRendersSquare (getRelativePos 10 0 0 1 (9/111) (9/111)) = true ∧
    distFromCenterSq (getRelativePos 10 0 0 1 (9/111) (9/111)) > 2500 := by
  constructor
  · norm_num [radarRendersSquare, getRelativePos]
  · norm_num [distFromCenterSq, getRelativePos]

/-- C8 (amended): for positive range, the component actually mounted by the
app (src/components/RadarUI.tsx) culls by the circular radar face — a target
is rendered iff its projected planar offset satisfies xKm² + yKm² ≤ range²,
i.e. iff its normalized radial distance is at most 0.5 — while the variant
in src/unnamed/part_001 culls by the enclosing square: there a target is
rendered iff |xKm| ≤ range and |yKm| ≤ range, so points with radial distance
beyond 0.5 but inside the square are still rendered. -/
theorem projection_culling (range uLat uLng cosULat lat lng : ℚ) (hr : 0 < range) :
    (radarRendersCircle (getRelativePos range uLat uLng cosULat lat lng) = true ↔
      ((lng - uLng) * (111 * cosULat)) ^ 2 + ((lat - uLat) * 111) ^ 2 ≤ range ^ 2) ∧
    (radarRendersSquare (getRelativePos range uLat uLng cosULat lat lng) = true ↔
      (|(lng - uLng) * (111 * cosULat)| ≤ range ∧ |(lat - uLat) * 111| ≤ range)) := by
  have hne : range ≠ 0 := ne_of_gt hr
  set x := (lng - uLng) * (111 * cosULat) with hxdef
  set y := (lat - uLat) * 111 with hydef
  have hp : getRelativePos range uLat uLng cosULat lat lng =
      (50 + x / range * 50, 50 - y / range * 50) := rfl
  have klow : ∀ z : ℚ, (0 ≤ 50 + z / range * 50) ↔ -range ≤ z := by
    intro z
    rw [show (50 : ℚ) + z / range * 50 = (50 * range + 50 * z) / range by
      field_simp; ring]
    rw [le_div_iff hr]
    constructor <;> intro h <;> linarith
  have khigh : ∀ z : ℚ, (50 + z / range * 50 ≤ 100) ↔ z ≤ range := by
    intro z
    rw [show (50 : ℚ) + z / range * 50 = (50 * range + 50 * z) / range by
      field_simp; ring]
    rw [div_le_iff hr]
    constructor <;> intro h <;> linarith
  constructor
  · rw [hp, radarRendersCircle, decide_eq_true_eq, distFromCenterSq]
    have e : ((50 : ℚ) + x / range * 50 - 50) ^ 2 + ((50 : ℚ) - y / range * 50 - 50) ^ 2 =
        (x ^ 2 + y ^ 2) * 2500 / range ^ 2 := by
      field_simp
      ring
    rw [e, div_le_iff (by positivity)]
    constructor <;> intro h <;> nlinarith
  · have hsq : ∀ a b : ℚ, radarRendersSquare (a, b) = true ↔
        (0 ≤ a ∧ a ≤ 100 ∧ 0 ≤ b ∧ b ≤ 100) := by
      intro a b
      unfold radarRendersSquare
      rw [Bool.not_eq_true']
      simp only [Bool.or_eq_false_iff, decide_eq_false_iff_not, not_lt]
      tauto
    rw [hp, hsq]
    have hy2 : (50 : ℚ) - y / range * 50 = 50 + (-y) / range * 50 := by ring
    rw [hy2, abs_le, abs_le, klow x, khigh x, klow (-y), khigh (-y)]
    constructor
    · rintro ⟨hx1, hx2, hy1, hy2'⟩
      exact ⟨⟨hx1, hx2⟩, by linarith, by linarith⟩
    · rintro ⟨⟨hx1, hx2⟩, hy1, hy2'⟩
      exact ⟨hx1, hx2, by linarith, by linarith⟩

theorem projection_culling_witness :
    radarRendersCircle (getRelativePos 10 0 0 1 (9/111) 0) = true ∧
    radarRendersSquare (getRelativePos 10 0 0 1 (9/111) 0) = true := by
  have h := projection_culling 10 0 0 1 (9/111) 0 (by norm_num)
  constructor
  · exact h.1.mpr (by norm_num)
  · exact h.2.mpr (by constructor <;> rw [abs_le] <;> constructor <;> norm_num)

/-- C9: serializing the Session State and reconstructing it at startup by
merging the snapshot field-by-field over the schema defaults reproduces the
state exactly (in particular the Target set, Scan Parameters and Progression
Modifiers), and every field absent from a snapshot takes its schema-default
value. -/
theorem session_roundtrip (st : RadarState) (s : SavedState) :
    loadState (some (saveState st)) = st ∧
    loadState none = defaultState ∧
    (s.range = none → (loadState (some s)).range = defaultState.range) ∧
    (s.userLocation = none →
      (loadState (some s)).userLocation = defaultState.userLocation) ∧
    (s.scanCenter = none → (loadState (some s)).scanCenter = defaultState.scanCenter) ∧
    (s.dragonBalls = none → (loadState (some s)).dragonBalls = defaultState.dragonBalls) ∧
    (s.isLoading = none → (loadState (some s)).isLoading = defaultState.isLoading) ∧
    (s.error = none → (loadState (some s)).error = defaultState.error) ∧
    (s.design = none → (loadState (some s)).design = defaultState.design) ∧
    (s.collectionRadius = none →
      (loadState (some s)).collectionRadius = defaultState.collectionRadius) ∧
    (s.unlockedFeatures = none →
      (loadState (some s)).unlockedFeatures = defaultState.unlockedFeatures) ∧
    (s.currentRace = none → (loadState (some s)).currentRace = defaultState.currentRace) := by
  refine ⟨rfl, rfl, ?_, ?_, ?_, ?_, ?_, ?_, ?_, ?_, ?_, ?_⟩ <;>
    (intro h; simp [loadState, h])

theorem session_roundtrip_witness :
    loadState (some (saveState stSeven)) = stSeven ∧
    (loadState (some ({ design := some "namek" } : SavedState))).collectionRadius =
      defaultState.collectionRadius := by
  exact ⟨(session_roundtrip stSeven ({ design := some "namek" } : SavedState)).1,
    (session_roundtrip stSeven
      ({ design := some "namek" } : SavedState)).2.2.2.2.2.2.2.2.2.1 rfl⟩
